import Mathlib

/-!
Verification of the Holy Grail Chat orchestration core
(packages/holy-grail-chat: core/validation.py, core/orchestrator.py,
tools/revos_tools.py, core/runner.py, server.py).

Python strings are modelled as Lean `String` (a list of Unicode code points,
matching Python's code-point view of `str`); dictionaries with fixed keys as
structures with `Option` fields; JSON values as the inductive `JVal`;
network calls as explicit `Except`-valued oracles passed in as arguments.
-/

/-! ## Generic string machinery (Python substring / strip / replace) -/
/-- Boolean test that `p` is a prefix of `s` (used to embed Python's `in`
and `str.replace`). -/
def prefixB : List Char → List Char → Bool
  | [], _ => true
  | _ :: _, [] => false
  | p :: ps, c :: cs => p == c && prefixB ps cs

/-- Boolean test that `pat` occurs as a contiguous substring of `hay`:
Python's `pat in hay` for strings. -/
def containsB : List Char → List Char → Bool
  | [], pat => pat.isEmpty
  | c :: t, pat => prefixB pat (c :: t) || containsB t pat

/-! ## Character classes of the identifier regexes (validation.py 126, 152) -/
/-- Characters matched by the Python class `[a-zA-Z0-9_:.-]` of
`validate_user_id` (validation.py line 126).  Lean's `Char.isAlpha` /
`Char.isDigit` are exactly the ASCII ranges that the Python regex matches. -/
def userIdChar (c : Char) : Bool :=
  c.isAlpha || c.isDigit || c == '_' || c == ':' || c == '.' || c == '-'

/-- Characters matched by the Python class `[a-zA-Z0-9_.-]` of
`validate_pod_id` (validation.py line 152) — note: no colon. -/
def podIdChar (c : Char) : Bool :=
  c.isAlpha || c.isDigit || c == '_' || c == '.' || c == '-'

/-- Embedding of Python `re.match(r'^[C]+$', s) is not None` for a character
class `C` that does not contain a newline.  Python's `$` matches at the end of
the string or just before a newline that is the last character, so the regex
accepts both an all-class string and an all-class body followed by one
trailing newline.  Since a newline is not in `C`, the greedy run
`takeWhile C` decides both cases exactly. -/
def reFullPlusMatch (C : Char → Bool) (s : String) : Bool :=
  let cs := s.data
  let run := cs.takeWhile C
  decide (1 ≤ run.length) &&
    (decide (run.length = cs.length) ||
      (decide (run.length + 1 = cs.length) && cs.getLast? == some '\n'))

/-! ## InputValidator.validate_user_id / validate_pod_id (validation.py 105-155) -/
/-- Embeds `InputValidator.validate_user_id` (validation.py lines 105-129).
The `isinstance(user_id, str)` branch is unreachable for string inputs and is
omitted. -/
def validate_user_id (user_id : String) : Bool × String :=
  if user_id = "" then (false, "user_id cannot be empty")
  else if 255 < user_id.length then (false, "user_id too long (max 255 characters)")
  else if !reFullPlusMatch userIdChar user_id then
    (false, "user_id contains invalid characters")
  else (true, "")

/-- Embeds `InputValidator.validate_pod_id` (validation.py lines 131-155). -/
def validate_pod_id (pod_id : String) : Bool × String :=
  if pod_id = "" then (false, "pod_id cannot be empty")
  else if 255 < pod_id.length then (false, "pod_id too long (max 255 characters)")
  else if !reFullPlusMatch podIdChar pod_id then
    (false, "pod_id contains invalid characters")
  else (true, "")

/-- Embeds orchestrator.py line 346: `memory_key = f"{pod_id}::{user_id}"`. -/
def memory_key (pod_id user_id : String) : String :=
  pod_id ++ "::" ++ user_id

/-! ## Conversation model (Python message dicts) -/
/-- A Python value as far as validation observes it: a string, or any
non-string object. -/
inductive PyVal where
  | str (s : String)
  | other
deriving DecidableEq

/-- A message dictionary: `role` / `content` keys, each possibly absent. -/
structure Msg where
  role : Option PyVal
  content : Option PyVal
deriving DecidableEq

/-- InputValidator.MAX_MESSAGE_LENGTH (validation.py line 16). -/
def MAX_MESSAGE_LENGTH : Nat := 10000

/-- InputValidator.MAX_MESSAGES (validation.py line 17). -/
def MAX_MESSAGES : Nat := 100

/-- Membership in InputValidator.ALLOWED_ROLES (validation.py line 18); a
non-string role is never a member. -/
def allowedRole : PyVal → Bool
  | .str r => r == "user" || r == "assistant" || r == "system"
  | .other => false

/-- Python repr of a role value as interpolated by the invalid-role message.
The non-string repr is abstracted (no theorem depends on it). -/
def pyReprRole : PyVal → String
  | .str r => "'" ++ r ++ "'"
  | .other => "<non-string role>"

/-- Repr of the ALLOWED_ROLES set in the invalid-role message.  CPython set
repr order is hash-randomized; a fixed representative order is chosen here and
no theorem depends on this string. -/
def ALLOWED_ROLES_REPR : String := "\x7b'user', 'assistant', 'system'\x7d"

/-- The per-message loop of `InputValidator.validate_messages`
(validation.py lines 47-69), carrying the current index.  The
`isinstance(msg, dict)` branch is unreachable in this typed model. -/
def vmLoop : List Msg → Nat → Bool × String
  | [], _ => (true, "")
  | m :: rest, i =>
    match m.role with
    | none => (false, "Message at index " ++ toString i ++ " missing 'role' field")
    | some r =>
      match m.content with
      | none => (false, "Message at index " ++ toString i ++ " missing 'content' field")
      | some c =>
        if !allowedRole r then
          (false, "Invalid role " ++ pyReprRole r ++ " at index " ++ toString i ++
            ". Allowed: " ++ ALLOWED_ROLES_REPR)
        else
          match c with
          | .other => (false, "Message content at index " ++ toString i ++ " must be a string")
          | .str s =>
            if MAX_MESSAGE_LENGTH < s.length then
              (false, "Message at index " ++ toString i ++ " too long (max " ++
                toString MAX_MESSAGE_LENGTH ++ ", got " ++ toString s.length ++ ")")
            else vmLoop rest (i + 1)

/-- Embeds `InputValidator.validate_messages` (validation.py lines 20-71) for
list inputs (the `isinstance(messages, list)` branch is unreachable here). -/
def validate_messages (messages : List Msg) : Bool × String :=
  if messages.length = 0 then (false, "Messages list cannot be empty")
  else if MAX_MESSAGES < messages.length then
    (false, "Too many messages (max " ++ toString MAX_MESSAGES ++ ", got " ++
      toString messages.length ++ ")")
  else vmLoop messages 0

/-! ## InputValidator.sanitize_message (validation.py lines 73-103) -/
/-- The character class removed by the `re.sub` in sanitize_message:
`[\x00-\x08\x0B-\x0C\x0E-\x1F\x7F]` (keeps tab, newline, carriage return). -/
def removedCtl (c : Char) : Bool :=
  let n := c.toNat
  decide (n ≤ 8) || decide (n = 11) || decide (n = 12) ||
    (decide (14 ≤ n) && decide (n ≤ 31)) || decide (n = 127)

/-- The whitespace class stripped by Python `str.strip()`: ASCII whitespace,
the information separators 0x1C-0x1F, NEL, NBSP and the Unicode space
code points.  Only the fact that letters are not in this class is used. -/
def pyStrSpace (c : Char) : Bool :=
  let n := c.toNat
  (decide (9 ≤ n) && decide (n ≤ 13)) || decide (n = 32) ||
    (decide (28 ≤ n) && decide (n ≤ 31)) || decide (n = 133) || decide (n = 160) ||
    decide (n = 5760) || (decide (8192 ≤ n) && decide (n ≤ 8202)) ||
    decide (n = 8232) || decide (n = 8233) || decide (n = 8239) ||
    decide (n = 8287) || decide (n = 12288)

/-- Python `str.strip()`: drop leading and trailing whitespace. -/
def pyStrip (cs : List Char) : List Char :=
  ((cs.dropWhile pyStrSpace).reverse.dropWhile pyStrSpace).reverse

/-- Embeds `InputValidator.sanitize_message` (validation.py lines 73-103):
remove the control characters, then strip surrounding whitespace. -/
def sanitize_message (content : String) : String :=
  if content = "" then ""
  else String.mk (pyStrip (content.data.filter (fun c => !removedCtl c)))

/-! ## RevOSTools configuration (revos_tools.py lines 15-27) -/
/-- Python `s.rstrip(c)` for a single strip character. -/
def pyRStrip (s : String) (c : Char) : String :=
  String.mk ((s.data.reverse.dropWhile (fun x => x == c)).reverse)

/-- The request configuration held by `RevOSTools.__init__`
(revos_tools.py lines 15-27). -/
structure RevOSTools where
  api_base_url : String
  headers : List (String × String)

/-- Embeds `RevOSTools.__init__`: strips trailing slashes from the base URL
and builds the Authorization / Content-Type headers. -/
def RevOSTools.init (api_base_url auth_token : String) : RevOSTools :=
  { api_base_url := pyRStrip api_base_url '/',
    headers := [("Authorization", "Bearer " ++ auth_token),
                ("Content-Type", "application/json")] }

/-- The orchestrator state relevant to this development: its RevOSTools
instance (the memory client, Supabase cache and agent are external). -/
structure HGCOrchestrator where
  revos_tools : RevOSTools

/-- Embeds `HGCOrchestrator.__init__` (orchestrator.py lines 26-37); the
mem0/openai keys configure external clients not modelled here. -/
def HGCOrchestrator.init (mem0_key openai_key api_base_url auth_token : String) :
    HGCOrchestrator :=
  { revos_tools := RevOSTools.init api_base_url auth_token }

/-- Python dict `.get` over the headers association list. -/
def lookupHeader (headers : List (String × String)) (k : String) : Option String :=
  (headers.find? (fun kv => kv.1 == k)).map (fun kv => kv.2)

/-- Fuel-indexed embedding of Python `s.replace(pat, '')` for a non-empty
pattern; fuel `s.length` is enough because every step consumes at least one
character of `s`. -/
def eraseOccFuel (pat : List Char) : Nat → List Char → List Char
  | _, [] => []
  | 0, s => s
  | fuel + 1, c :: rest =>
    if prefixB pat (c :: rest) && !pat.isEmpty then
      eraseOccFuel pat fuel (List.drop (pat.length - 1) rest)
    else c :: eraseOccFuel pat fuel rest

/-- Python `s.replace(pat, '')`. -/
def pyReplaceEmpty (s pat : String) : String :=
  String.mk (eraseOccFuel pat.data s.data.length s.data)

/-- Embeds orchestrator.py line 379: the fallback path's auth token is the
orchestrator's stored Authorization header with `'Bearer '` replaced away. -/
def extracted_auth_token (o : HGCOrchestrator) : String :=
  pyReplaceEmpty ((lookupHeader o.revos_tools.headers "Authorization").getD "") "Bearer "

/-! ## HGCOrchestrator.process (orchestrator.py lines 312-417) -/
/-- CAMPAIGN_KEYWORDS (orchestrator.py line 20). -/
def CAMPAIGN_KEYWORDS : List String := ["campaign", "campaigns"]

/-- Python per-code-point `str.lower` (ASCII case mapping, which is all the
keyword check depends on). -/
def pyLower (cs : List Char) : List Char := cs.map Char.toLower

/-- The fallback trigger (orchestrator.py line 376):
`any(keyword in last_user_message.lower() for keyword in CAMPAIGN_KEYWORDS)`. -/
def keywordHit (m : String) : Bool :=
  CAMPAIGN_KEYWORDS.any (fun kw => containsB (pyLower m.data) kw.data)

/-- The reversed-scan for the most recent message with role `'user'`
(orchestrator.py lines 360-364). -/
def findLastUser (messages : List Msg) : Option Msg :=
  messages.reverse.find? (fun m => decide (m.role = some (PyVal.str "user")))

/-- `msg.get('content', '')` as read by the last-user-message scan.  A
non-string content is abstracted to `""`; it is unreachable after
validate_messages has accepted the conversation. -/
def pyGetContent (m : Msg) : String :=
  match m.content with
  | some (.str s) => s
  | _ => ""

/-- The fixed reply of orchestrator.py line 367. -/
def NO_MESSAGE_REPLY : String := "I didn't receive a message. Please try again."

/-- How one `process` call terminates (which route it takes). -/
inductive ProcStep where
  | raised (err : String)
  | fixedReply (text : String)
  | fallbackQuery (auth_token : String)
  | agentRun (input : String)
deriving DecidableEq

/-- Observable outcome of `process`: the route taken and the memory scope key
stored in the orchestrator's per-request cell (none if validation raised). -/
structure ProcOutcome where
  step : ProcStep
  memKeySet : Option String
deriving DecidableEq

/-- Embeds the control flow of `HGCOrchestrator.process` (orchestrator.py
lines 312-417): validate, derive the memory key, select the most recent user
message, sanitize it, and route to the fixed reply, the keyword-triggered
fallback path, or the agent. -/
def process (o : HGCOrchestrator) (messages : List Msg) (user_id pod_id : String) :
    ProcOutcome :=
  match validate_messages messages with
  | (false, err) => ⟨.raised ("Invalid messages: " ++ err), none⟩
  | (true, _) =>
    match validate_user_id user_id with
    | (false, err) => ⟨.raised ("Invalid user_id: " ++ err), none⟩
    | (true, _) =>
      match validate_pod_id pod_id with
      | (false, err) => ⟨.raised ("Invalid pod_id: " ++ err), none⟩
      | (true, _) =>
        let key := memory_key pod_id user_id
        match findLastUser messages with
        | none => ⟨.fixedReply NO_MESSAGE_REPLY, some key⟩
        | some m =>
          let raw := pyGetContent m
          if raw = "" then ⟨.fixedReply NO_MESSAGE_REPLY, some key⟩
          else
            let sanitized := sanitize_message raw
            if keywordHit sanitized then
              ⟨.fallbackQuery (extracted_auth_token o), some key⟩
            else ⟨.agentRun sanitized, some key⟩

/-! ## validate_messages: characterization (claim C8) -/
/-- A structurally well-formed, in-bound message: allowed role, string
content of at most MAX_MESSAGE_LENGTH characters. -/
def msgOk (m : Msg) : Prop :=
  (∃ r, m.role = some r ∧ allowedRole r = true) ∧
  (∃ s, m.content = some (PyVal.str s) ∧ s.length ≤ MAX_MESSAGE_LENGTH)

/-- A message of MAX_MESSAGE_LENGTH + 1 characters. -/
def longMsgContent : String := String.mk (List.replicate (MAX_MESSAGE_LENGTH + 1) 'a')

/-! ## Keyword trigger: sanitization preserves keyword occurrences (claim C5) -/
/-- Whether a process step is the fallback direct-access route. -/
def ProcStep.isFallbackQuery : ProcStep → Bool
  | .fallbackQuery _ => true
  | _ => false

/-! ## _format_campaigns_response (orchestrator.py lines 133-151, claim C6) -/
/-- One campaign record as assembled by `_fetch_campaigns_with_metrics`
(orchestrator.py lines 124-129): name, status, and the two derived counts. -/
structure Campaign where
  name : String
  status : String
  leads : Nat
  posts : Nat

/-- The two lines contributed by the i-th (1-based) campaign
(orchestrator.py lines 148-149). -/
def campaignLine (i : Nat) (c : Campaign) : String :=
  toString i ++ ". **" ++ c.name ++ "** (" ++ c.status ++ ")\n" ++
    "   - Leads: " ++ toString c.leads ++ ", Posts: " ++ toString c.posts ++ "\n"

/-- The enumerate(campaigns, 1) loop of orchestrator.py lines 147-149. -/
def formatEntries : List Campaign → Nat → String
  | [], _ => ""
  | c :: rest, i => campaignLine i c ++ formatEntries rest (i + 1)

/-- Embeds `HGCOrchestrator._format_campaigns_response` (orchestrator.py
lines 133-151; the Python name carries a leading underscore). -/
def format_campaigns_response (campaigns : List Campaign) : String :=
  if campaigns.length = 0 then
    "You don't have any campaigns yet. Would you like to create one?"
  else
    "You have " ++ toString campaigns.length ++ " campaign(s):\n\n" ++
      formatEntries campaigns 1

/-! ## JSON values and the RevOS tools (revos_tools.py, claims C3 and C4) -/
/-- A JSON value (Python dict values, API payloads and responses). -/
inductive JVal where
  | jnull
  | jbool (b : Bool)
  | jnum (n : Int)
  | jstr (s : String)
  | jarr (elems : List JVal)
  | jobj (fields : List (String × JVal))

/-- Association-list lookup: Python dict access over a JSON object's fields. -/
def lookupField (fields : List (String × JVal)) (k : String) : Option JVal :=
  (fields.find? (fun kv => kv.1 == k)).map (fun kv => kv.2)

/-- An optional string argument as serialized into a JSON payload
(Python None becomes JSON null). -/
def optStr : Option String → JVal
  | some s => .jstr s
  | none => .jnull

/-- The payload built by `create_campaign` (revos_tools.py lines 190-195):
the status field is the literal "draft", and the tool's signature admits no
status argument at all. -/
def create_campaign_payload (name voice_id : String) (description : Option String) :
    List (String × JVal) :=
  [("name", .jstr name), ("voice_id", .jstr voice_id),
   ("description", optStr description), ("status", .jstr "draft")]

/-- The payload built by `schedule_post` (revos_tools.py lines 232-237):
the status field is the literal "queued". -/
def schedule_post_payload (content schedule_time : String) (campaign_id : Option String) :
    List (String × JVal) :=
  [("content", .jstr content), ("schedule_time", .jstr schedule_time),
   ("campaign_id", optStr campaign_id), ("status", .jstr "queued")]

/-- Outcome of one HTTP request as the tool body observes it: either the
parsed JSON object of a 2xx response, or the message of the
requests.RequestException raised by the transport or by raise_for_status. -/
def HttpOutcome := Except String (List (String × JVal))

/-- `data.get(k, default)` on a parsed response object. -/
def respGet (data : List (String × JVal)) (k : String) (default : JVal) : JVal :=
  (lookupField data k).getD default

/-- Embeds `get_all_campaigns` (revos_tools.py lines 37-68). -/
def get_all_campaigns (http : HttpOutcome) : List (String × JVal) :=
  match http with
  | .ok data =>
    [("success", .jbool true), ("campaigns", respGet data "campaigns" (.jarr [])),
     ("count", respGet data "count" (.jnum 0))]
  | .error e => [("success", .jbool false), ("error", .jstr ("Failed to fetch campaigns: " ++ e))]

/-- Embeds `get_campaign_by_id` (revos_tools.py lines 70-102). -/
def get_campaign_by_id (campaign_id : String) (http : HttpOutcome) : List (String × JVal) :=
  match http with
  | .ok data =>
    [("success", .jbool true), ("campaigns", respGet data "campaigns" (.jarr [])),
     ("count", respGet data "count" (.jnum 0))]
  | .error e => [("success", .jbool false), ("error", .jstr ("Failed to fetch campaign: " ++ e))]

/-- Embeds `analyze_pod_engagement` (revos_tools.py lines 104-135). -/
def analyze_pod_engagement (pod_id : String) (http : HttpOutcome) : List (String × JVal) :=
  match http with
  | .ok data => [("success", .jbool true), ("engagement", respGet data "engagement" (.jobj []))]
  | .error e =>
    [("success", .jbool false), ("error", .jstr ("Failed to analyze pod engagement: " ++ e))]

/-- Embeds `get_linkedin_performance` (revos_tools.py lines 137-168). -/
def get_linkedin_performance (date_range : Option String) (http : HttpOutcome) :
    List (String × JVal) :=
  match http with
  | .ok data => [("success", .jbool true), ("performance", respGet data "performance" (.jobj []))]
  | .error e =>
    [("success", .jbool false), ("error", .jstr ("Failed to fetch LinkedIn performance: " ++ e))]

/-- A write tool's call: the payload it posts and the result it returns. -/
structure ToolCall where
  payload : List (String × JVal)
  result : List (String × JVal)

/-- Embeds `create_campaign` (revos_tools.py lines 170-210). -/
def create_campaign (name voice_id : String) (description : Option String)
    (http : HttpOutcome) : ToolCall :=
  { payload := create_campaign_payload name voice_id description,
    result :=
      match http with
      | .ok data =>
        [("success", .jbool true), ("campaign", respGet data "campaign" (.jobj [])),
         ("message", .jstr "Campaign created in DRAFT status. Review and activate in dashboard.")]
      | .error e =>
        [("success", .jbool false), ("error", .jstr ("Failed to create campaign: " ++ e))] }

/-- Embeds `schedule_post` (revos_tools.py lines 212-252). -/
def schedule_post (content schedule_time : String) (campaign_id : Option String)
    (http : HttpOutcome) : ToolCall :=
  { payload := schedule_post_payload content schedule_time campaign_id,
    result :=
      match http with
      | .ok data =>
        [("success", .jbool true), ("post", respGet data "post" (.jobj [])),
         ("message", .jstr "Post queued for review. Approve in dashboard to publish.")]
      | .error e =>
        [("success", .jbool false), ("error", .jstr ("Failed to queue post: " ++ e))] }

/-- Embeds `analyze_campaign_performance` (revos_tools.py lines 254-284). -/
def analyze_campaign_performance (campaign_id : String) (http : HttpOutcome) :
    List (String × JVal) :=
  match http with
  | .ok data =>
    [("success", .jbool true), ("analysis", respGet data "analysis" (.jobj [])),
     ("recommendations", respGet data "recommendations" (.jarr []))]
  | .error e =>
    [("success", .jbool false), ("error", .jstr ("Failed to analyze campaign: " ++ e))]

/-! ## Memory tools (orchestrator.py lines 205-261, claim C4) -/
/-- Embeds the `search_memory` tool closure (orchestrator.py lines 205-236):
`key` is the orchestrator's current memory key (None if unset), `backend` the
outcome of `self.memory.search`. -/
def search_memory (key : Option String) (backend : Except String JVal) : JVal :=
  match key with
  | none => .jarr []
  | some _ =>
    match backend with
    | .error _ => .jarr []
    | .ok result =>
      match result with
      | .jobj fields =>
        match lookupField fields "results" with
        | some r => r
        | none => .jobj fields
      | r => r

/-- Embeds the `save_memory` tool closure (orchestrator.py lines 238-261). -/
def save_memory (key : Option String) (content : String) (backend : Except String JVal) :
    JVal :=
  match key with
  | none => .jobj [("success", .jbool false), ("error", .jstr "No memory key")]
  | some _ =>
    match backend with
    | .error e => .jobj [("success", .jbool false), ("error", .jstr e)]
    | .ok r =>
      .jobj [("success", .jbool true), ("saved", .jstr content), ("result", r)]

/-! ## FastAPI front door (server.py, claim C2) -/
/-- The environment variables read by `get_orchestrator` (server.py 39-41). -/
structure ServerEnv where
  MEM0_API_KEY : Option String
  OPENAI_API_KEY : Option String
  NEXT_PUBLIC_API_URL : Option String

/-- Embeds `get_orchestrator` (server.py lines 34-55): returns the cached
orchestrator if one exists, otherwise constructs and caches one — with
`auth_token=""` (server.py line 51, "Not used with service role key"). -/
def get_orchestrator (env : ServerEnv) (cached : Option HGCOrchestrator) :
    Except String (HGCOrchestrator × Option HGCOrchestrator) :=
  match cached with
  | some inst => .ok (inst, some inst)
  | none =>
    if env.MEM0_API_KEY.getD "" = "" ∨ env.OPENAI_API_KEY.getD "" = "" then
      .error "MEM0_API_KEY and OPENAI_API_KEY must be set"
    else
      let inst := HGCOrchestrator.init (env.MEM0_API_KEY.getD "")
        (env.OPENAI_API_KEY.getD "")
        (env.NEXT_PUBLIC_API_URL.getD "http://localhost:3000/api") ""
      .ok (inst, some inst)

/-- What one `POST /chat` request produces (server.py lines 73-101):
the auth token the orchestrator's tenant-data and fallback access would use
during this request, the process outcome, and the new cache state. -/
structure ChatOutcome where
  orchestrator_auth_token : String
  outcome : ProcOutcome
  newCached : Option HGCOrchestrator

/-- Embeds the `chat` endpoint (server.py lines 73-107).  The handler
declares the `authorization` header parameter (line 74) but never reads it:
the orchestrator — and with it the Authorization header used for all
tenant-data and fallback access — comes solely from `get_orchestrator`. -/
def chat (env : ServerEnv) (cached : Option HGCOrchestrator)
    (message user_id pod_id : String) (authorization : Option String) :
    Except String ChatOutcome :=
  match get_orchestrator env cached with
  | .error e => .error e
  | .ok (o, c') =>
    .ok { orchestrator_auth_token := extracted_auth_token o,
          outcome := process o [⟨some (.str "user"), some (.str message)⟩] user_id pod_id,
          newCached := c' }

/-! ## Runner (core/runner.py, claim C9) -/
/-- Python truthiness of a JSON value (as tested by `all([...])`,
runner.py line 50). -/
def pyTruthy : JVal → Bool
  | .jnull => false
  | .jbool b => b
  | .jnum n => decide (n ≠ 0)
  | .jstr s => decide (s ≠ "")
  | .jarr xs => !xs.isEmpty
  | .jobj fs => !fs.isEmpty

/-- A Python exception as reported by the runner: `type(e).__name__` and
`str(e)`. -/
structure PyExc where
  typeName : String
  message : String

/-- Observable behaviour of one runner invocation: exit code, the single
JSON object written to stdout or stderr, and whether the orchestrator was
constructed before termination. -/
structure RunnerOut where
  exitCode : Nat
  stdoutJson : Option (List (String × JVal))
  stderrJson : Option (List (String × JVal))
  orchestratorConstructed : Bool

/-- `str(KeyError('k'))` is the repr of the key, with quotes. -/
def keyErrorMessage (k : String) : String := "'" ++ k ++ "'"

/-- The error path of runner.py lines 77-84: error JSON on stderr, exit 1. -/
def runnerFail (msg ty : String) (constructed : Bool) : RunnerOut :=
  ⟨1, none, some [("error", .jstr msg), ("type", .jstr ty)], constructed⟩

/-- Embeds `main` of runner.py (lines 30-84) for a present, parsed context
object.  `context['k']` raises KeyError when k is absent — except
`messages`, read with `.get('messages', [])` (line 43), whose absence
instead fails the `all([...])` truthiness check (line 50).  The orchestrator
is constructed only after that check; `processResult` is the outcome of
`orchestrator.process`. -/
def main_runner (context : List (String × JVal)) (processResult : Except PyExc String) :
    RunnerOut :=
  match lookupField context "user_id" with
  | none => runnerFail (keyErrorMessage "user_id") "KeyError" false
  | some user_id =>
    match lookupField context "pod_id" with
    | none => runnerFail (keyErrorMessage "pod_id") "KeyError" false
    | some pod_id =>
      let messages := (lookupField context "messages").getD (.jarr [])
      match lookupField context "api_base_url" with
      | none => runnerFail (keyErrorMessage "api_base_url") "KeyError" false
      | some api_base_url =>
        match lookupField context "mem0_key" with
        | none => runnerFail (keyErrorMessage "mem0_key") "KeyError" false
        | some mem0_key =>
          match lookupField context "openai_key" with
          | none => runnerFail (keyErrorMessage "openai_key") "KeyError" false
          | some openai_key =>
            match lookupField context "auth_token" with
            | none => runnerFail (keyErrorMessage "auth_token") "KeyError" false
            | some auth_token =>
              if !(pyTruthy user_id && pyTruthy pod_id && pyTruthy messages &&
                    pyTruthy api_base_url && pyTruthy mem0_key && pyTruthy openai_key &&
                    pyTruthy auth_token) then
                runnerFail "Missing required context fields" "ValueError" false
              else
                match processResult with
                | .error exc =>
                  ⟨1, none, some [("error", .jstr exc.message), ("type", .jstr exc.typeName)],
                    true⟩
                | .ok text =>
                  ⟨0, some [("content", .jstr text), ("memory_stored", .jbool true)], none, true⟩

/-- A context blob with all seven required keys present and truthy. -/
def runnerCtxAll : List (String × JVal) :=
  [("user_id", .jstr "user-1"), ("pod_id", .jstr "pod-1"),
   ("messages", .jarr [.jobj [("role", .jstr "user"), ("content", .jstr "hi")]]),
   ("api_base_url", .jstr "http://localhost:3000/api"),
   ("mem0_key", .jstr "mk"), ("openai_key", .jstr "ok"), ("auth_token", .jstr "tok")]

/-! ## Theorems -/

theorem prefixB_iff (p s : List Char) : prefixB p s = true ↔ ∃ t, s = p ++ t := by
  induction p generalizing s with
  | nil => simp [prefixB]
  | cons a ps ih =>
    cases s with
    | nil => simp [prefixB]
    | cons c cs =>
      simp only [prefixB, Bool.and_eq_true, beq_iff_eq, ih, List.cons_append,
        List.cons.injEq]
      constructor
      · rintro ⟨rfl, t, rfl⟩; exact ⟨t, rfl, rfl⟩
      · rintro ⟨t, rfl, rfl⟩; exact ⟨rfl, t, rfl⟩

theorem containsB_iff (hay pat : List Char) :
    containsB hay pat = true ↔ ∃ a b, hay = a ++ pat ++ b := by
  induction hay with
  | nil =>
    simp only [containsB, List.isEmpty_iff]
    constructor
    · rintro rfl; exact ⟨[], [], rfl⟩
    · rintro ⟨a, b, h⟩
      rcases List.append_eq_nil.mp (List.append_eq_nil.mp h.symm).1 with ⟨-, h2⟩
      exact h2
  | cons c t ih =>
    simp only [containsB, Bool.or_eq_true, prefixB_iff, ih]
    constructor
    · rintro (⟨b, h⟩ | ⟨a, b, h⟩)
      · exact ⟨[], b, by simpa using h⟩
      · exact ⟨c :: a, b, by simp [h]⟩
    · rintro ⟨a, b, h⟩
      cases a with
      | nil => exact Or.inl ⟨b, by simpa using h⟩
      | cons a0 as =>
        simp only [List.cons_append, List.cons.injEq] at h
        exact Or.inr ⟨as, b, h.2⟩

theorem containsB_of_occurrence {hay pat : List Char} (a b : List Char)
    (h : hay = a ++ pat ++ b) : containsB hay pat = true :=
  (containsB_iff hay pat).mpr ⟨a, b, h⟩

/-! ### Characterization of the regex acceptance -/
theorem takeWhile_length_eq_iff_all (C : Char → Bool) (cs : List Char) :
    (cs.takeWhile C).length = cs.length ↔ cs.all C = true := by
  induction cs with
  | nil => simp
  | cons c t ih =>
    by_cases h : C c
    · simp [List.takeWhile_cons, h, ih]
    · simp only [List.takeWhile_cons, h]
      simp only [Bool.false_eq_true, if_false, List.length_nil, List.length_cons,
        List.all_cons, h, Bool.false_and]
      constructor
      · intro hlen; omega
      · intro hfalse; exact absurd hfalse (by simp)

theorem all_takeWhile (C : Char → Bool) (cs : List Char) :
    (cs.takeWhile C).all C = true := by
  induction cs with
  | nil => simp
  | cons c t ih =>
    by_cases h : C c
    · simp [List.takeWhile_cons, h, ih]
    · simp [List.takeWhile_cons, h]

theorem takeWhile_all_append {C : Char → Bool} {body tail : List Char}
    (hbody : body.all C = true) :
    (body ++ tail).takeWhile C = body ++ tail.takeWhile C := by
  induction body with
  | nil => simp
  | cons c t ih =>
    simp only [List.all_cons, Bool.and_eq_true] at hbody
    simp [List.takeWhile_cons, hbody.1, ih hbody.2]

theorem runCond_iff (C : Char → Bool) (hnl : C '\n' = false) (cs : List Char) :
    (1 ≤ (cs.takeWhile C).length ∧
      ((cs.takeWhile C).length = cs.length ∨
        ((cs.takeWhile C).length + 1 = cs.length ∧ cs.getLast? = some '\n'))) ↔
    ((cs ≠ [] ∧ cs.all C = true) ∨
      ∃ body, cs = body ++ ['\n'] ∧ body ≠ [] ∧ body.all C = true) := by
  constructor
  · rintro ⟨hlen, hcase | ⟨hclose, hlast⟩⟩
    · left
      refine ⟨?_, (takeWhile_length_eq_iff_all C cs).mp hcase⟩
      intro hnil; rw [hnil] at hlen; simp at hlen
    · right
      have hsplit := List.takeWhile_append_dropWhile (p := C) (l := cs)
      have hdlen : (cs.dropWhile C).length = 1 := by
        have := congrArg List.length hsplit
        simp only [List.length_append] at this
        omega
      obtain ⟨x, hx⟩ := List.length_eq_one.mp hdlen
      have hcs : cs = cs.takeWhile C ++ [x] := by rw [← hx, hsplit]
      have hxnl : x = '\n' := by
        have h2 : cs.getLast? = some x := by
          rw [hcs]; simp [List.getLast?_append]
        rw [h2] at hlast
        exact Option.some.inj hlast
      refine ⟨cs.takeWhile C, by rw [← hxnl]; exact hcs, ?_, all_takeWhile C cs⟩
      intro hnil; rw [hnil] at hlen; simp at hlen
  · rintro (⟨hne, hall⟩ | ⟨body, hbody, hbne, hall⟩)
    · have hrun := (takeWhile_length_eq_iff_all C cs).mpr hall
      refine ⟨?_, Or.inl hrun⟩
      rw [hrun]
      cases hd : cs with
      | nil => exact absurd hd hne
      | cons a t => simp [hd]
    · have hrun : cs.takeWhile C = body := by
        rw [hbody, takeWhile_all_append hall]
        simp [List.takeWhile_cons, hnl]
      rw [hrun, hbody]
      refine ⟨?_, Or.inr ⟨by simp, by simp [List.getLast?_append]⟩⟩
      cases hb : body with
      | nil => exact absurd hb hbne
      | cons a t => simp [hb]

/-- The regex `^[C]+$` accepts exactly: a non-empty all-class string, or a
non-empty all-class body followed by a single trailing newline. -/
theorem reFullPlusMatch_iff (C : Char → Bool) (hnl : C '\n' = false) (s : String) :
    reFullPlusMatch C s = true ↔
      (s.data ≠ [] ∧ s.data.all C = true) ∨
      (∃ body, s.data = body ++ ['\n'] ∧ body ≠ [] ∧ body.all C = true) := by
  unfold reFullPlusMatch
  simp only [Bool.and_eq_true, Bool.or_eq_true, decide_eq_true_eq, beq_iff_eq]
  exact runCond_iff C hnl s.data

theorem string_data_inj {s t : String} (h : s.data = t.data) : s = t :=
  String.ext h

theorem string_eq_empty_iff (s : String) : s = "" ↔ s.data = [] := by
  constructor
  · rintro rfl; rfl
  · intro h; exact string_data_inj h

theorem userIdChar_newline : userIdChar '\n' = false := by decide

theorem podIdChar_newline : podIdChar '\n' = false := by decide

/-- Exact acceptance condition of `validate_user_id`: non-empty, at most 255
characters, and either every character in the class `[a-zA-Z0-9_:.-]` or a
non-empty all-class body followed by one trailing newline (accepted because
Python's `$` matches before a final newline). -/
theorem validate_user_id_true_iff (s : String) :
    (validate_user_id s).1 = true ↔
      s ≠ "" ∧ s.length ≤ 255 ∧
        ((s.data ≠ [] ∧ s.data.all userIdChar = true) ∨
          ∃ body, s.data = body ++ ['\n'] ∧ body ≠ [] ∧ body.all userIdChar = true) := by
  unfold validate_user_id
  by_cases h0 : s = ""
  · simp [h0]
  · rw [if_neg h0]
    by_cases h1 : 255 < s.length
    · rw [if_pos h1]
      constructor
      · intro h; exact absurd h (by simp)
      · rintro ⟨-, h2, -⟩; omega
    · rw [if_neg h1]
      by_cases h2 : reFullPlusMatch userIdChar s = true
      · rw [if_neg (by simp [h2])]
        simp only [true_iff]
        exact ⟨h0, by omega, (reFullPlusMatch_iff userIdChar userIdChar_newline s).mp h2⟩
      · rw [if_pos (by simpa using h2)]
        constructor
        · intro h; exact absurd h (by simp)
        · rintro ⟨-, -, h3⟩
          exact absurd ((reFullPlusMatch_iff userIdChar userIdChar_newline s).mpr h3) h2

/-- Exact acceptance condition of `validate_pod_id`: as for user ids but with
the colon-free class `[a-zA-Z0-9_.-]`. -/
theorem validate_pod_id_true_iff (s : String) :
    (validate_pod_id s).1 = true ↔
      s ≠ "" ∧ s.length ≤ 255 ∧
        ((s.data ≠ [] ∧ s.data.all podIdChar = true) ∨
          ∃ body, s.data = body ++ ['\n'] ∧ body ≠ [] ∧ body.all podIdChar = true) := by
  unfold validate_pod_id
  by_cases h0 : s = ""
  · simp [h0]
  · rw [if_neg h0]
    by_cases h1 : 255 < s.length
    · rw [if_pos h1]
      constructor
      · intro h; exact absurd h (by simp)
      · rintro ⟨-, h2, -⟩; omega
    · rw [if_neg h1]
      by_cases h2 : reFullPlusMatch podIdChar s = true
      · rw [if_neg (by simp [h2])]
        simp only [true_iff]
        exact ⟨h0, by omega, (reFullPlusMatch_iff podIdChar podIdChar_newline s).mp h2⟩
      · rw [if_pos (by simpa using h2)]
        constructor
        · intro h; exact absurd h (by simp)
        · rintro ⟨-, -, h3⟩
          exact absurd ((reFullPlusMatch_iff podIdChar podIdChar_newline s).mpr h3) h2

theorem podIdChar_ne_colon {c : Char} (h : podIdChar c = true) : c ≠ ':' := by
  rintro rfl; exact absurd h (by decide)

/-- A string accepted by `validate_pod_id` contains no colon. -/
theorem validate_pod_id_no_colon {p : String} (h : (validate_pod_id p).1 = true) :
    ∀ c ∈ p.data, c ≠ ':' := by
  intro c hc
  rcases ((validate_pod_id_true_iff p).mp h).2.2 with ⟨-, hall⟩ | ⟨body, hb, -, hall⟩
  · exact podIdChar_ne_colon (List.all_eq_true.mp hall c hc)
  · rw [hb] at hc
    rcases List.mem_append.mp hc with hc2 | hc2
    · exact podIdChar_ne_colon (List.all_eq_true.mp hall c hc2)
    · simp only [List.mem_singleton] at hc2
      rintro rfl; simp at hc2

theorem sep_append_inj (a : List Char) :
    ∀ b a' b', (∀ c ∈ a, c ≠ ':') → (∀ c ∈ a', c ≠ ':') →
      a ++ ':' :: ':' :: b = a' ++ ':' :: ':' :: b' → a = a' ∧ b = b' := by
  induction a with
  | nil =>
    intro b a' b' _ ha' h
    cases a' with
    | nil => simpa using h
    | cons x xs =>
      simp only [List.nil_append, List.cons_append, List.cons.injEq] at h
      exact absurd h.1.symm (ha' x (by simp))
  | cons x xs ih =>
    intro b a' b' ha ha' h
    cases a' with
    | nil =>
      simp only [List.cons_append, List.nil_append, List.cons.injEq] at h
      exact absurd h.1 (ha x (by simp))
    | cons y ys =>
      simp only [List.cons_append, List.cons.injEq] at h
      obtain ⟨h1, h2⟩ := ih b ys b'
        (fun c hc => ha c (List.mem_cons_of_mem x hc))
        (fun c hc => ha' c (List.mem_cons_of_mem y hc)) h.2
      exact ⟨by rw [h.1, h1], h2⟩

theorem memory_key_data (p u : String) :
    (memory_key p u).data = p.data ++ (':' :: ':' :: u.data) := by
  show (p ++ "::" ++ u).data = _
  have h1 : (p ++ "::" ++ u).data = (p.data ++ (String.mk [':', ':']).data) ++ u.data := rfl
  rw [h1]
  simp

/-- C1: for inputs accepted by validate_pod_id and validate_user_id, the
composite memory scope key pod_id ++ "::" ++ user_id built by process
(orchestrator.py line 346) is injective in the (pod_id, user_id) pair: no two
distinct (tenant, user) pairs share a key.  This holds because an accepted
pod_id can never contain a colon, so the first "::" in the key is the
separator. -/
theorem c1_memory_key_injective (p u p' u' : String)
    (hp : (validate_pod_id p).1 = true) (hp' : (validate_pod_id p').1 = true)
    (_hu : (validate_user_id u).1 = true) (_hu' : (validate_user_id u').1 = true)
    (hk : memory_key p u = memory_key p' u') : p = p' ∧ u = u' := by
  have hd := congrArg String.data hk
  rw [memory_key_data, memory_key_data] at hd
  obtain ⟨h1, h2⟩ := sep_append_inj p.data u.data p'.data u'.data
    (validate_pod_id_no_colon hp) (validate_pod_id_no_colon hp') hd
  exact ⟨string_data_inj h1, string_data_inj (by simpa using h2)⟩

/-- Witness for C1 at the concrete pair ("pod-1", "user-1"): both identifiers
validate and the theorem applies. -/
theorem c1_memory_key_injective_witness :
    ("pod-1" : String) = "pod-1" ∧ ("user-1" : String) = "user-1" :=
  c1_memory_key_injective "pod-1" "user-1" "pod-1" "user-1"
    (by decide) (by decide) (by decide) (by decide) rfl

/-- C7 counterexample: the claim says validate_pod_id accepts every non-empty
string of at most 255 characters drawn from the class alphanumeric plus
underscore colon dot hyphen, and that both validators reject any string with a
character outside that class.  Both parts fail: "a:b" is inside the claimed
class yet validate_pod_id rejects it (its regex has no colon), and "abc\n"
contains a newline (outside the class) yet validate_user_id accepts it
(Python's $ matches before a trailing newline). -/
theorem c7_counterexample :
    ((validate_pod_id "a:b").1 = false ∧
      ("a:b" : String) ≠ "" ∧ ("a:b" : String).length ≤ 255 ∧
      ("a:b" : String).data.all userIdChar = true) ∧
    ((validate_user_id "abc\n").1 = true ∧
      ¬ ("abc\n" : String).data.all userIdChar = true) := by
  decide

/-- C7 (amended): validate_user_id accepts exactly the non-empty strings of at
most 255 characters that are either all in the class alphanumeric plus
underscore colon dot hyphen, or such a non-empty body followed by one trailing
newline; validate_pod_id is identical except its class excludes the colon. -/
theorem c7_validation_character_class (s : String) :
    ((validate_user_id s).1 = true ↔
      s ≠ "" ∧ s.length ≤ 255 ∧
        ((s.data ≠ [] ∧ s.data.all userIdChar = true) ∨
          ∃ body, s.data = body ++ ['\n'] ∧ body ≠ [] ∧ body.all userIdChar = true)) ∧
    ((validate_pod_id s).1 = true ↔
      s ≠ "" ∧ s.length ≤ 255 ∧
        ((s.data ≠ [] ∧ s.data.all podIdChar = true) ∨
          ∃ body, s.data = body ++ ['\n'] ∧ body ≠ [] ∧ body.all podIdChar = true)) :=
  ⟨validate_user_id_true_iff s, validate_pod_id_true_iff s⟩

theorem vmLoop_all_ok : ∀ (msgs : List Msg) (i : Nat),
    (∀ m ∈ msgs, msgOk m) → vmLoop msgs i = (true, "") := by
  intro msgs
  induction msgs with
  | nil => intro i _; rfl
  | cons m rest ih =>
    intro i hok
    obtain ⟨⟨r, hr, har⟩, ⟨s, hc, hlen⟩⟩ := hok m (by simp)
    simp only [vmLoop, hr, hc, har, Bool.not_true, Bool.false_eq_true, if_false,
      if_neg (by omega : ¬ MAX_MESSAGE_LENGTH < s.length)]
    exact ih (i + 1) (fun m' hm' => hok m' (List.mem_cons_of_mem m hm'))

theorem vmLoop_first_long : ∀ (pre : List Msg) (i : Nat) (m : Msg) (post : List Msg)
    (r : PyVal) (s : String),
    (∀ m' ∈ pre, msgOk m') →
    m.role = some r → allowedRole r = true →
    m.content = some (PyVal.str s) → MAX_MESSAGE_LENGTH < s.length →
    vmLoop (pre ++ m :: post) i =
      (false, "Message at index " ++ toString (i + pre.length) ++ " too long (max " ++
        toString MAX_MESSAGE_LENGTH ++ ", got " ++ toString s.length ++ ")") := by
  intro pre
  induction pre with
  | nil =>
    intro i m post r s _ hr har hc hlen
    simp only [List.nil_append, vmLoop, hr, hc, har, Bool.not_true,
      Bool.false_eq_true, if_false, if_pos hlen, List.length_nil, Nat.add_zero]
  | cons p rest ih =>
    intro i m post r s hok hr har hc hlen
    obtain ⟨⟨r0, hr0, har0⟩, ⟨s0, hc0, hlen0⟩⟩ := hok p (by simp)
    simp only [List.cons_append, vmLoop, hr0, hc0, har0, Bool.not_true,
      Bool.false_eq_true, if_false, List.append_eq,
      if_neg (by omega : ¬ MAX_MESSAGE_LENGTH < s0.length)]
    have := ih (i + 1) m post r s (fun m' hm' => hok m' (List.mem_cons_of_mem p hm'))
      hr har hc hlen
    have harith : i + 1 + rest.length = i + (p :: rest).length := by
      simp only [List.length_cons]; omega
    rw [this, harith]

theorem tooMany_reason_fold (n : Nat) :
    "Too many messages (max " ++ toString MAX_MESSAGES ++ ", got " ++ toString n ++ ")" =
    "Too many messages (max 100, got " ++ toString n ++ ")" := by
  apply string_data_inj
  simp only [String.data_append, List.append_assoc]
  rfl

theorem tooLong_reason_fold (i n : Nat) :
    "Message at index " ++ toString i ++ " too long (max " ++
      toString MAX_MESSAGE_LENGTH ++ ", got " ++ toString n ++ ")" =
    "Message at index " ++ toString i ++ " too long (max 10000, got " ++
      toString n ++ ")" := by
  apply string_data_inj
  simp only [String.data_append, List.append_assoc]
  rfl

theorem longMsgContent_length : MAX_MESSAGE_LENGTH < longMsgContent.length := by
  show MAX_MESSAGE_LENGTH < (List.replicate (MAX_MESSAGE_LENGTH + 1) 'a').length
  rw [List.length_replicate]
  omega

/-- C8 counterexample: a conversation containing an over-length message can
get a rejection reason that does not name the length bound at all, when an
earlier message is structurally malformed: here the first message has no
'role' key, so the reason is about the missing role even though the second
message is 10001 characters long, and the number 10000 appears nowhere in the
reason. -/
theorem c8_counterexample :
    validate_messages [⟨none, some (PyVal.str "hi")⟩,
        ⟨some (PyVal.str "user"), some (PyVal.str longMsgContent)⟩] =
      (false, "Message at index 0 missing 'role' field") ∧
    MAX_MESSAGE_LENGTH < longMsgContent.length ∧
    containsB ("Message at index 0 missing 'role' field").data
      (toString MAX_MESSAGE_LENGTH).data = false :=
  ⟨rfl, longMsgContent_length, by decide⟩

/-- C8 (amended): validate_messages rejects the empty conversation and any
conversation longer than 100 with a reason naming that bound; it rejects a
conversation whose first structural offender is an over-length message with a
reason naming the 10000-character bound (when an earlier message is itself
malformed, the reason instead names that earlier problem); and it accepts
every non-empty conversation of at most 100 messages whose messages all have
an allowed role and string content within the length bound. -/
theorem c8_validate_messages_bounds :
    (validate_messages [] = (false, "Messages list cannot be empty")) ∧
    (∀ msgs : List Msg, MAX_MESSAGES < msgs.length →
      validate_messages msgs =
        (false, "Too many messages (max 100, got " ++ toString msgs.length ++ ")")) ∧
    (∀ (pre : List Msg) (m : Msg) (post : List Msg) (r : PyVal) (s : String),
      (pre ++ m :: post).length ≤ MAX_MESSAGES →
      (∀ m' ∈ pre, msgOk m') →
      m.role = some r → allowedRole r = true →
      m.content = some (PyVal.str s) → MAX_MESSAGE_LENGTH < s.length →
      validate_messages (pre ++ m :: post) =
        (false, "Message at index " ++ toString pre.length ++
          " too long (max 10000, got " ++ toString s.length ++ ")")) ∧
    (∀ msgs : List Msg, msgs ≠ [] → msgs.length ≤ MAX_MESSAGES →
      (∀ m ∈ msgs, msgOk m) → validate_messages msgs = (true, "")) := by
  refine ⟨rfl, ?_, ?_, ?_⟩
  · intro msgs h
    unfold validate_messages
    rw [if_neg (by omega : ¬ msgs.length = 0), if_pos h, tooMany_reason_fold]
  · intro pre m post r s hbound hok hr har hc hlen
    unfold validate_messages
    rw [if_neg (by simp only [List.length_append, List.length_cons]; omega :
          ¬ (pre ++ m :: post).length = 0),
      if_neg (by omega : ¬ MAX_MESSAGES < (pre ++ m :: post).length),
      vmLoop_first_long pre 0 m post r s hok hr har hc hlen,
      Nat.zero_add, tooLong_reason_fold]
  · intro msgs hne hbound hok
    unfold validate_messages
    rw [if_neg (by simpa using hne), if_neg (by omega : ¬ MAX_MESSAGES < msgs.length)]
    exact vmLoop_all_ok msgs 0 hok

/-- Witness for C8: the too-many branch at a 101-message conversation, the
over-length branch at a single 10001-character message, and the accepting
branch at a single well-formed message. -/
theorem c8_validate_messages_bounds_witness :
    validate_messages (List.replicate 101 ⟨some (PyVal.str "user"), some (PyVal.str "hi")⟩) =
      (false, "Too many messages (max 100, got " ++
        toString (List.replicate 101 (⟨some (PyVal.str "user"), some (PyVal.str "hi")⟩ : Msg)).length ++ ")") ∧
    validate_messages ([] ++ (⟨some (PyVal.str "user"), some (PyVal.str longMsgContent)⟩ : Msg) :: []) =
      (false, "Message at index " ++ toString ([] : List Msg).length ++
        " too long (max 10000, got " ++ toString longMsgContent.length ++ ")") ∧
    validate_messages [⟨some (PyVal.str "user"), some (PyVal.str "hello")⟩] = (true, "") :=
  ⟨c8_validate_messages_bounds.2.1 _ (by rw [List.length_replicate]; decide),
   c8_validate_messages_bounds.2.2.1 [] _ [] (PyVal.str "user") longMsgContent
     (by simp only [List.nil_append, List.length_cons, List.length_nil]; decide)
     (by intro m' hm'; simp at hm') rfl rfl rfl longMsgContent_length,
   c8_validate_messages_bounds.2.2.2 _ (by simp) (by decide)
     (by
       intro m hm
       rw [List.mem_singleton] at hm
       subst hm
       exact ⟨⟨PyVal.str "user", rfl, rfl⟩, ⟨"hello", rfl, by decide⟩⟩)⟩

/-! ## process: routing (claims C10 and C5) -/
theorem pair_eta_true {p : Bool × String} (h : p.1 = true) : p = (true, p.2) := by
  rw [← h]

/-- After the three validations succeed, `process` reduces to the
message-selection and routing tail. -/
theorem process_eq_routing (o : HGCOrchestrator) (msgs : List Msg) (uid pid : String)
    (hm : (validate_messages msgs).1 = true)
    (hu : (validate_user_id uid).1 = true)
    (hp : (validate_pod_id pid).1 = true) :
    process o msgs uid pid =
      match findLastUser msgs with
      | none => ⟨.fixedReply NO_MESSAGE_REPLY, some (memory_key pid uid)⟩
      | some m =>
        if pyGetContent m = "" then ⟨.fixedReply NO_MESSAGE_REPLY, some (memory_key pid uid)⟩
        else
          if keywordHit (sanitize_message (pyGetContent m)) then
            ⟨.fallbackQuery (extracted_auth_token o), some (memory_key pid uid)⟩
          else ⟨.agentRun (sanitize_message (pyGetContent m)), some (memory_key pid uid)⟩ := by
  unfold process
  rw [pair_eta_true hm, pair_eta_true hu, pair_eta_true hp]

/-- C10: a conversation that passes validation but has no message with role
user, or whose most recent user message has empty content, makes process
return the fixed "I didn't receive a message. Please try again." reply; the
step is neither the fallback path nor an agent run (nor a raised error). -/
theorem c10_empty_user_message_fixed_reply (o : HGCOrchestrator) (msgs : List Msg)
    (uid pid : String)
    (hm : (validate_messages msgs).1 = true)
    (hu : (validate_user_id uid).1 = true)
    (hp : (validate_pod_id pid).1 = true)
    (hcase : (∀ m ∈ msgs, m.role ≠ some (PyVal.str "user")) ∨
      (∃ m, findLastUser msgs = some m ∧ m.content = some (PyVal.str ""))) :
    process o msgs uid pid = ⟨.fixedReply NO_MESSAGE_REPLY, some (memory_key pid uid)⟩ := by
  rw [process_eq_routing o msgs uid pid hm hu hp]
  rcases hcase with hnone | ⟨m, hfind, hempty⟩
  · have h : findLastUser msgs = none := by
      unfold findLastUser
      rw [List.find?_eq_none]
      intro m hm'
      simpa using hnone m (List.mem_reverse.mp hm')
    rw [h]
  · rw [hfind]
    have h : pyGetContent m = "" := by unfold pyGetContent; rw [hempty]
    simp [h]

/-- Witness for C10: a validated one-message conversation from the assistant
only (no user message). -/
theorem c10_empty_user_message_fixed_reply_witness :
    process (HGCOrchestrator.init "mk" "ok" "http://localhost:3000/api" "tok")
        [⟨some (PyVal.str "assistant"), some (PyVal.str "hi")⟩] "user-1" "pod-1" =
      ⟨.fixedReply NO_MESSAGE_REPLY, some (memory_key "pod-1" "user-1")⟩ :=
  c10_empty_user_message_fixed_reply _ _ _ _ (by decide) (by decide) (by decide)
    (Or.inl (by intro m hm; rw [List.mem_singleton] at hm; subst hm; simp))

theorem toNat_ofNat_small {n : Nat} (h : n < 55296) : (Char.ofNat n).toNat = n := by
  rw [Char.ofNat, dif_pos (Or.inl h : Nat.isValidChar n)]
  rfl

theorem toLower_eq (c : Char) :
    Char.toLower c = if c.toNat ≥ 65 ∧ c.toNat ≤ 90 then Char.ofNat (c.toNat + 32) else c := by
  unfold Char.toLower
  rfl

theorem removedCtl_eq (c : Char) : removedCtl c =
    (decide (c.toNat ≤ 8) || decide (c.toNat = 11) || decide (c.toNat = 12) ||
      (decide (14 ≤ c.toNat) && decide (c.toNat ≤ 31)) || decide (c.toNat = 127)) := rfl

theorem pyStrSpace_eq (c : Char) : pyStrSpace c =
    ((decide (9 ≤ c.toNat) && decide (c.toNat ≤ 13)) || decide (c.toNat = 32) ||
      (decide (28 ≤ c.toNat) && decide (c.toNat ≤ 31)) || decide (c.toNat = 133) ||
      decide (c.toNat = 160) || decide (c.toNat = 5760) ||
      (decide (8192 ≤ c.toNat) && decide (c.toNat ≤ 8202)) ||
      decide (c.toNat = 8232) || decide (c.toNat = 8233) || decide (c.toNat = 8239) ||
      decide (c.toNat = 8287) || decide (c.toNat = 12288)) := rfl

theorem removedCtl_mid_false {m : Nat} (h1 : 65 ≤ m) (h2 : m ≤ 122) :
    (decide (m ≤ 8) || decide (m = 11) || decide (m = 12) ||
      (decide (14 ≤ m) && decide (m ≤ 31)) || decide (m = 127)) = false := by
  simp only [Bool.or_eq_false_iff, Bool.and_eq_false_iff, decide_eq_false_iff_not]
  omega

theorem pyStrSpace_mid_false {m : Nat} (h1 : 65 ≤ m) (h2 : m ≤ 122) :
    ((decide (9 ≤ m) && decide (m ≤ 13)) || decide (m = 32) ||
      (decide (28 ≤ m) && decide (m ≤ 31)) || decide (m = 133) ||
      decide (m = 160) || decide (m = 5760) ||
      (decide (8192 ≤ m) && decide (m ≤ 8202)) ||
      decide (m = 8232) || decide (m = 8233) || decide (m = 8239) ||
      decide (m = 8287) || decide (m = 12288)) = false := by
  simp only [Bool.or_eq_false_iff, Bool.and_eq_false_iff, decide_eq_false_iff_not]
  omega

theorem removedCtl_toLower (c : Char) : removedCtl (Char.toLower c) = removedCtl c := by
  rw [toLower_eq]
  by_cases h : c.toNat ≥ 65 ∧ c.toNat ≤ 90
  · rw [if_pos h, removedCtl_eq, removedCtl_eq,
      toNat_ofNat_small (by omega : c.toNat + 32 < 55296),
      removedCtl_mid_false (by omega) (by omega),
      removedCtl_mid_false (by omega) (by omega)]
  · rw [if_neg h]

theorem pyStrSpace_toLower (c : Char) : pyStrSpace (Char.toLower c) = pyStrSpace c := by
  rw [toLower_eq]
  by_cases h : c.toNat ≥ 65 ∧ c.toNat ≤ 90
  · rw [if_pos h, pyStrSpace_eq, pyStrSpace_eq,
      toNat_ofNat_small (by omega : c.toNat + 32 < 55296),
      pyStrSpace_mid_false (by omega) (by omega),
      pyStrSpace_mid_false (by omega) (by omega)]
  · rw [if_neg h]

theorem keep_comp_toLower :
    (fun c => !removedCtl c) ∘ Char.toLower = (fun c => !removedCtl c) :=
  funext fun c => by simp [Function.comp, removedCtl_toLower]

theorem sp_comp_toLower : pyStrSpace ∘ Char.toLower = pyStrSpace :=
  funext fun c => by simp [Function.comp, pyStrSpace_toLower]

theorem pyLower_filter (x : List Char) :
    pyLower (x.filter (fun c => !removedCtl c)) =
      (pyLower x).filter (fun c => !removedCtl c) := by
  unfold pyLower
  rw [List.map_filter, keep_comp_toLower]

theorem pyLower_dropWhile (x : List Char) :
    pyLower (x.dropWhile pyStrSpace) = (pyLower x).dropWhile pyStrSpace := by
  unfold pyLower
  rw [List.dropWhile_map, sp_comp_toLower]

theorem pyLower_reverse (x : List Char) : pyLower x.reverse = (pyLower x).reverse := by
  unfold pyLower
  rw [List.reverse_map]

theorem pyLower_pyStrip (x : List Char) : pyLower (pyStrip x) = pyStrip (pyLower x) := by
  unfold pyStrip
  rw [pyLower_reverse, pyLower_dropWhile, pyLower_reverse, pyLower_dropWhile]

theorem pyLower_sanitize (s : String) :
    pyLower (sanitize_message s).data =
      pyStrip ((pyLower s.data).filter (fun c => !removedCtl c)) := by
  unfold sanitize_message
  by_cases h : s = ""
  · rw [if_pos h, h]
    rfl
  · rw [if_neg h]
    show pyLower (pyStrip (s.data.filter (fun c => !removedCtl c))) = _
    rw [pyLower_pyStrip, pyLower_filter]

theorem filter_occurrence (keep : Char → Bool) (a w b : List Char)
    (hw : ∀ c ∈ w, keep c = true) :
    (a ++ w ++ b).filter keep = a.filter keep ++ w ++ b.filter keep := by
  simp [List.filter_append, List.filter_eq_self.mpr hw]

theorem dropWhile_occurrence (sp : Char → Bool) (w b : List Char) (hne : w ≠ [])
    (hw : ∀ c ∈ w, sp c = false) :
    ∀ a : List Char, ∃ a', (a ++ (w ++ b)).dropWhile sp = a' ++ (w ++ b) := by
  intro a
  induction a with
  | nil =>
    refine ⟨[], ?_⟩
    cases w with
    | nil => exact absurd rfl hne
    | cons w0 ws =>
      simp only [List.nil_append, List.cons_append]
      rw [List.dropWhile_cons_of_neg (by simp [hw w0 (by simp)])]
  | cons c rest ih =>
    by_cases h : sp c = true
    · obtain ⟨a', ha'⟩ := ih
      refine ⟨a', ?_⟩
      rw [List.cons_append, List.dropWhile_cons_of_pos h, ha']
    · refine ⟨c :: rest, ?_⟩
      rw [List.cons_append, List.dropWhile_cons_of_neg (by simp [h])]

theorem pyStrip_occurrence (a w b : List Char) (hne : w ≠ [])
    (hw : ∀ c ∈ w, pyStrSpace c = false) :
    ∃ a' b', pyStrip (a ++ w ++ b) = a' ++ w ++ b' := by
  obtain ⟨a1, h1⟩ := dropWhile_occurrence pyStrSpace w b hne hw a
  unfold pyStrip
  rw [List.append_assoc, h1, List.reverse_append, List.reverse_append, List.append_assoc]
  obtain ⟨b1, h2⟩ := dropWhile_occurrence pyStrSpace w.reverse a1.reverse
    (by simpa using hne) (fun c hc => hw c (List.mem_reverse.mp hc)) b.reverse
  rw [h2]
  refine ⟨a1, b1.reverse, ?_⟩
  rw [List.reverse_append, List.reverse_append, List.reverse_reverse, List.reverse_reverse]

theorem keyword_preserved (raw : String) (pat : List Char) (hne : pat ≠ [])
    (hkeep : ∀ c ∈ pat, (!removedCtl c) = true) (hsp : ∀ c ∈ pat, pyStrSpace c = false)
    (h : containsB (pyLower raw.data) pat = true) :
    containsB (pyLower (sanitize_message raw).data) pat = true := by
  rw [pyLower_sanitize]
  obtain ⟨a, b, hab⟩ := (containsB_iff _ _).mp h
  have hfil : (pyLower raw.data).filter (fun c => !removedCtl c) =
      a.filter (fun c => !removedCtl c) ++ pat ++ b.filter (fun c => !removedCtl c) := by
    rw [hab]
    exact filter_occurrence _ a pat b hkeep
  obtain ⟨a', b', hstrip⟩ :=
    pyStrip_occurrence (a.filter (fun c => !removedCtl c)) pat
      (b.filter (fun c => !removedCtl c)) hne hsp
  rw [hfil, hstrip]
  exact containsB_of_occurrence a' b' rfl

theorem keywordHit_iff (m : String) :
    keywordHit m = true ↔
      (containsB (pyLower m.data) ("campaign".data) = true ∨
        containsB (pyLower m.data) ("campaigns".data) = true) := by
  unfold keywordHit CAMPAIGN_KEYWORDS
  simp [List.any_cons, List.any_nil]

/-- C5 counterexample: the most recent user message "camp\x00aign" contains
neither "campaign" nor "campaigns" in any letter case (the null byte splits
the word), yet process takes the fallback direct-access path, because
sanitization removes the null byte before the keyword test. -/
theorem c5_counterexample :
    keywordHit "camp\x00aign" = false ∧
    (process (HGCOrchestrator.init "mk" "ok" "http://localhost:3000/api" "tok")
        [⟨some (PyVal.str "user"), some (PyVal.str "camp\x00aign")⟩] "user-1" "pod-1").step =
      ProcStep.fallbackQuery "tok" := by
  constructor
  · decide
  · decide

/-- C5 (amended): when the validated conversation has a most recent user
message with string content raw, (i) if raw contains "campaign" or
"campaigns" in any letter case then process takes the fallback direct-access
path (sanitization preserves the keyword); (ii) if the sanitized message
contains neither keyword then process never takes the fallback path.  The
trigger is evaluated on the sanitized message, which can differ from raw only
when control characters inside raw assemble a keyword, as in the
counterexample. -/
theorem c5_keyword_fallback_routing (o : HGCOrchestrator) (msgs : List Msg)
    (uid pid : String) (m : Msg) (raw : String)
    (hm : (validate_messages msgs).1 = true)
    (hu : (validate_user_id uid).1 = true)
    (hp : (validate_pod_id pid).1 = true)
    (hfind : findLastUser msgs = some m)
    (hraw : m.content = some (PyVal.str raw)) :
    (keywordHit raw = true →
      process o msgs uid pid =
        ⟨.fallbackQuery (extracted_auth_token o), some (memory_key pid uid)⟩) ∧
    (keywordHit (sanitize_message raw) = false →
      (process o msgs uid pid).step.isFallbackQuery = false) := by
  have hc : pyGetContent m = raw := by unfold pyGetContent; rw [hraw]
  constructor
  · intro hkw
    have hrawne : raw ≠ "" := by
      intro h0
      rcases (keywordHit_iff raw).mp hkw with h | h <;> (rw [h0] at h; exact absurd h (by decide))
    have hsan : keywordHit (sanitize_message raw) = true := by
      rcases (keywordHit_iff raw).mp hkw with h | h
      · exact (keywordHit_iff _).mpr
          (Or.inl (keyword_preserved raw _ (by decide) (by decide) (by decide) h))
      · exact (keywordHit_iff _).mpr
          (Or.inr (keyword_preserved raw _ (by decide) (by decide) (by decide) h))
    rw [process_eq_routing o msgs uid pid hm hu hp, hfind]
    simp only [hc, if_neg hrawne, if_pos hsan]
  · intro hkw
    rw [process_eq_routing o msgs uid pid hm hu hp, hfind]
    by_cases h0 : raw = ""
    · simp only [hc, if_pos h0]
      rfl
    · simp only [hc, if_neg h0, hkw, Bool.false_eq_true, if_false]
      rfl

/-- Witness for C5: "Show me my CAMPAIGNS" triggers the fallback path and
"hello there" does not. -/
theorem c5_keyword_fallback_routing_witness :
    process (HGCOrchestrator.init "mk" "ok" "http://localhost:3000/api" "tok")
        [⟨some (PyVal.str "user"), some (PyVal.str "Show me my CAMPAIGNS")⟩]
        "user-1" "pod-1" =
      ⟨.fallbackQuery (extracted_auth_token
          (HGCOrchestrator.init "mk" "ok" "http://localhost:3000/api" "tok")),
        some (memory_key "pod-1" "user-1")⟩ ∧
    (process (HGCOrchestrator.init "mk" "ok" "http://localhost:3000/api" "tok")
        [⟨some (PyVal.str "user"), some (PyVal.str "hello there")⟩]
        "user-1" "pod-1").step.isFallbackQuery = false :=
  ⟨(c5_keyword_fallback_routing _ _ _ _
      ⟨some (PyVal.str "user"), some (PyVal.str "Show me my CAMPAIGNS")⟩
      "Show me my CAMPAIGNS"
      (by decide) (by decide) (by decide) (by decide) rfl).1 (by decide),
   (c5_keyword_fallback_routing _ _ _ _
      ⟨some (PyVal.str "user"), some (PyVal.str "hello there")⟩ "hello there"
      (by decide) (by decide) (by decide) (by decide) rfl).2 (by decide)⟩

theorem formatEntries_occurrence :
    ∀ (cs : List Campaign) (i start : Nat) (h : i < cs.length),
      ∃ x y, formatEntries cs start =
        x ++ campaignLine (start + i) (cs.get ⟨i, h⟩) ++ y := by
  intro cs
  induction cs with
  | nil => intro i start h; exact absurd h (by simp)
  | cons c rest ih =>
    intro i start h
    cases i with
    | zero =>
      refine ⟨"", formatEntries rest (start + 1), ?_⟩
      show campaignLine start c ++ formatEntries rest (start + 1) = _
      rw [Nat.add_zero]
      apply string_data_inj
      simp only [String.data_append, List.append_assoc, List.get]
      rfl
    | succ j =>
      obtain ⟨x, y, hxy⟩ := ih j (start + 1) (by simpa using Nat.lt_of_succ_lt_succ h)
      refine ⟨campaignLine start c ++ x, y, ?_⟩
      show campaignLine start c ++ formatEntries rest (start + 1) = _
      rw [hxy]
      have hidx : start + 1 + j = start + (j + 1) := by omega
      rw [hidx]
      simp only [List.get]
      simp only [← String.append_assoc]

/-- C6: formatting the campaign list is a pure function of its input.  The
empty list yields exactly the fixed no-campaigns message; a non-empty list of
n records yields text starting "You have n campaign(s):"; the i-th record
contributes the line "i+1. **name** (status)" followed by the line
"   - Leads: l, Posts: p"; and equal inputs give byte-identical output. -/
theorem c6_format_campaigns_pure :
    (format_campaigns_response [] =
      "You don't have any campaigns yet. Would you like to create one?") ∧
    (∀ cs : List Campaign, cs ≠ [] →
      ∃ rest, format_campaigns_response cs =
        ("You have " ++ toString cs.length ++ " campaign(s):") ++ rest) ∧
    (∀ (cs : List Campaign) (i : Nat) (h : i < cs.length),
      ∃ x y, format_campaigns_response cs =
        x ++ campaignLine (i + 1) (cs.get ⟨i, h⟩) ++ y) ∧
    (∀ cs cs' : List Campaign, cs = cs' →
      format_campaigns_response cs = format_campaigns_response cs') := by
  refine ⟨rfl, ?_, ?_, fun cs cs' h => by rw [h]⟩
  · intro cs hne
    refine ⟨"\n\n" ++ formatEntries cs 1, ?_⟩
    unfold format_campaigns_response
    rw [if_neg (by simpa using hne)]
    apply string_data_inj
    simp only [String.data_append, List.append_assoc]
    rfl
  · intro cs i h
    obtain ⟨x, y, hxy⟩ := formatEntries_occurrence cs i 1 h
    have h1 : (1 : Nat) + i = i + 1 := Nat.add_comm 1 i
    rw [h1] at hxy
    refine ⟨("You have " ++ toString cs.length ++ " campaign(s):\n\n") ++ x, y, ?_⟩
    unfold format_campaigns_response
    rw [if_neg (by omega : ¬ cs.length = 0), hxy]
    simp only [← String.append_assoc]

/-- Witness for C6 on the one-element list with name "AI Leadership", status
"active", 10 leads and 5 posts. -/
theorem c6_format_campaigns_pure_witness :
    (∃ rest, format_campaigns_response [⟨"AI Leadership", "active", 10, 5⟩] =
      ("You have " ++ toString ([⟨"AI Leadership", "active", 10, 5⟩] : List Campaign).length ++
        " campaign(s):") ++ rest) ∧
    (∃ x y, format_campaigns_response [⟨"AI Leadership", "active", 10, 5⟩] =
      x ++ campaignLine (0 + 1)
        (([⟨"AI Leadership", "active", 10, 5⟩] : List Campaign).get ⟨0, by decide⟩) ++ y) :=
  ⟨c6_format_campaigns_pure.2.1 _ (List.cons_ne_nil _ _),
   c6_format_campaigns_pure.2.2.1 _ 0 (by simp)⟩

/-- C3: for every invocation of create_campaign and schedule_post, whatever
arguments the agent supplies (the signatures admit no status argument), the
HTTP payload carries status "draft" respectively "queued"; no invocation can
produce an active or published status. -/
theorem c3_write_tools_force_safe_status
    (name voice_id content schedule_time : String)
    (description campaign_id : Option String) (http http' : HttpOutcome) :
    lookupField (create_campaign name voice_id description http).payload "status" =
      some (.jstr "draft") ∧
    lookupField (schedule_post content schedule_time campaign_id http').payload "status" =
      some (.jstr "queued") :=
  ⟨rfl, rfl⟩

/-- C4: no tool callable propagates an exception to the dispatcher.  Every
tenant-data tool returns success false with an error message on any
network/HTTP error; search_memory returns the empty list (not an error) when
the scope key is unset or the backend fails; save_memory returns a failure
object instead of raising. -/
theorem c4_tools_never_raise (e : String) (campaign_id pod_id content k : String)
    (name voice_id schedule_time : String) (description cid date_range : Option String)
    (backend : Except String JVal) :
    get_all_campaigns (.error e) =
      [("success", .jbool false), ("error", .jstr ("Failed to fetch campaigns: " ++ e))] ∧
    get_campaign_by_id campaign_id (.error e) =
      [("success", .jbool false), ("error", .jstr ("Failed to fetch campaign: " ++ e))] ∧
    analyze_pod_engagement pod_id (.error e) =
      [("success", .jbool false), ("error", .jstr ("Failed to analyze pod engagement: " ++ e))] ∧
    get_linkedin_performance date_range (.error e) =
      [("success", .jbool false), ("error", .jstr ("Failed to fetch LinkedIn performance: " ++ e))] ∧
    (create_campaign name voice_id description (.error e)).result =
      [("success", .jbool false), ("error", .jstr ("Failed to create campaign: " ++ e))] ∧
    (schedule_post content schedule_time cid (.error e)).result =
      [("success", .jbool false), ("error", .jstr ("Failed to queue post: " ++ e))] ∧
    analyze_campaign_performance campaign_id (.error e) =
      [("success", .jbool false), ("error", .jstr ("Failed to analyze campaign: " ++ e))] ∧
    search_memory none backend = .jarr [] ∧
    search_memory (some k) (.error e) = .jarr [] ∧
    save_memory none content backend =
      .jobj [("success", .jbool false), ("error", .jstr "No memory key")] ∧
    save_memory (some k) content (.error e) =
      .jobj [("success", .jbool false), ("error", .jstr e)] :=
  ⟨rfl, rfl, rfl, rfl, rfl, rfl, rfl, rfl, rfl, rfl, rfl⟩

/-- C2 evaluated at the failing input: a POST /chat carrying header
"Bearer tok-abc" on a fresh server.  The token used for tenant-data and
fallback access during the request is the empty string baked in at
orchestrator construction, not the request's bearer token; the fallback
query triggered by the campaign keyword runs with that empty token. -/
theorem c2_bearer_token_ignored :
    ∃ r, chat ⟨some "mk", some "ok", none⟩ none "show my campaigns" "user-1" "pod-1"
        (some "Bearer tok-abc") = .ok r ∧
      r.orchestrator_auth_token = "" ∧
      r.orchestrator_auth_token ≠ "tok-abc" ∧
      r.outcome.step = ProcStep.fallbackQuery "" :=
  ⟨_, rfl, rfl, by decide, by decide⟩

theorem runnerFail_shape (msg ty : String) :
    (runnerFail msg ty false).exitCode = 1 ∧
    (runnerFail msg ty false).stdoutJson = none ∧
    (runnerFail msg ty false).orchestratorConstructed = false ∧
    ∃ m t, (runnerFail msg ty false).stderrJson =
      some [("error", .jstr m), ("type", .jstr t)] :=
  ⟨rfl, rfl, rfl, msg, ty, rfl⟩

theorem main_runner_missing_any (context : List (String × JVal))
    (pr : Except PyExc String)
    (hmiss : lookupField context "user_id" = none ∨ lookupField context "pod_id" = none ∨
      lookupField context "messages" = none ∨ lookupField context "api_base_url" = none ∨
      lookupField context "mem0_key" = none ∨ lookupField context "openai_key" = none ∨
      lookupField context "auth_token" = none) :
    (main_runner context pr).exitCode = 1 ∧
    (main_runner context pr).stdoutJson = none ∧
    (main_runner context pr).orchestratorConstructed = false ∧
    ∃ m t, (main_runner context pr).stderrJson =
      some [("error", .jstr m), ("type", .jstr t)] := by
  cases h1 : lookupField context "user_id" with
  | none => simp only [main_runner, h1]; exact runnerFail_shape _ _
  | some v1 =>
  cases h2 : lookupField context "pod_id" with
  | none => simp only [main_runner, h1, h2]; exact runnerFail_shape _ _
  | some v2 =>
  cases h4 : lookupField context "api_base_url" with
  | none => simp only [main_runner, h1, h2, h4]; exact runnerFail_shape _ _
  | some v4 =>
  cases h5 : lookupField context "mem0_key" with
  | none => simp only [main_runner, h1, h2, h4, h5]; exact runnerFail_shape _ _
  | some v5 =>
  cases h6 : lookupField context "openai_key" with
  | none => simp only [main_runner, h1, h2, h4, h5, h6]; exact runnerFail_shape _ _
  | some v6 =>
  cases h7 : lookupField context "auth_token" with
  | none => simp only [main_runner, h1, h2, h4, h5, h6, h7]; exact runnerFail_shape _ _
  | some v7 =>
  have h3 : lookupField context "messages" = none := by
    rcases hmiss with h | h | h | h | h | h | h
    · rw [h] at h1; exact absurd h1 (by simp)
    · rw [h] at h2; exact absurd h2 (by simp)
    · exact h
    · rw [h] at h4; exact absurd h4 (by simp)
    · rw [h] at h5; exact absurd h5 (by simp)
    · rw [h] at h6; exact absurd h6 (by simp)
    · rw [h] at h7; exact absurd h7 (by simp)
  simp only [main_runner, h1, h2, h3, h4, h5, h6, h7, Option.getD,
    pyTruthy, List.isEmpty_nil, Bool.not_true, Bool.and_false, Bool.false_and,
    Bool.not_false, if_true]
  exact runnerFail_shape _ _

/-- C9 counterexample: on a successful run over a fully-populated context,
the single JSON object on stdout has keys content and memory_stored — it has
no success field and no text field, contradicting the claimed
`(text, success true)` shape. -/
theorem c9_counterexample :
    main_runner runnerCtxAll (.ok "hello") =
      ⟨0, some [("content", .jstr "hello"), ("memory_stored", .jbool true)], none, true⟩ ∧
    lookupField [("content", JVal.jstr "hello"), ("memory_stored", JVal.jbool true)]
      "success" = none ∧
    lookupField [("content", JVal.jstr "hello"), ("memory_stored", JVal.jbool true)]
      "text" = none :=
  ⟨rfl, rfl, rfl⟩

/-- C9 (amended): if any of the seven required context keys is absent the
runner exits with code 1, writes nothing to stdout, writes one
`(error, type)` JSON object to stderr, and never constructs the
orchestrator; a successful run exits with code 0 and writes exactly one
`(content, memory_stored true)` JSON object to stdout (not
`(text, success true)` as the spec has it). -/
theorem c9_runner_contract :
    (∀ (context : List (String × JVal)) (pr : Except PyExc String) (k : String),
      k ∈ ["user_id", "pod_id", "messages", "api_base_url",
        "mem0_key", "openai_key", "auth_token"] →
      lookupField context k = none →
      (main_runner context pr).exitCode = 1 ∧
      (main_runner context pr).stdoutJson = none ∧
      (main_runner context pr).orchestratorConstructed = false ∧
      ∃ m t, (main_runner context pr).stderrJson =
        some [("error", .jstr m), ("type", .jstr t)]) ∧
    (∀ (context : List (String × JVal)) (text : String),
      (∀ k ∈ ["user_id", "pod_id", "messages", "api_base_url",
          "mem0_key", "openai_key", "auth_token"],
        ∃ v, lookupField context k = some v ∧ pyTruthy v = true) →
      main_runner context (.ok text) =
        ⟨0, some [("content", .jstr text), ("memory_stored", .jbool true)], none, true⟩) := by
  constructor
  · intro context pr k hk hmiss
    apply main_runner_missing_any
    simp only [List.mem_cons, List.mem_singleton, List.not_mem_nil, or_false] at hk
    rcases hk with rfl | rfl | rfl | rfl | rfl | rfl | rfl
    · exact Or.inl hmiss
    · exact Or.inr (Or.inl hmiss)
    · exact Or.inr (Or.inr (Or.inl hmiss))
    · exact Or.inr (Or.inr (Or.inr (Or.inl hmiss)))
    · exact Or.inr (Or.inr (Or.inr (Or.inr (Or.inl hmiss))))
    · exact Or.inr (Or.inr (Or.inr (Or.inr (Or.inr (Or.inl hmiss)))))
    · exact Or.inr (Or.inr (Or.inr (Or.inr (Or.inr (Or.inr hmiss)))))
  · intro context text hall
    obtain ⟨v1, h1, t1⟩ := hall "user_id" (by simp)
    obtain ⟨v2, h2, t2⟩ := hall "pod_id" (by simp)
    obtain ⟨v3, h3, t3⟩ := hall "messages" (by simp)
    obtain ⟨v4, h4, t4⟩ := hall "api_base_url" (by simp)
    obtain ⟨v5, h5, t5⟩ := hall "mem0_key" (by simp)
    obtain ⟨v6, h6, t6⟩ := hall "openai_key" (by simp)
    obtain ⟨v7, h7, t7⟩ := hall "auth_token" (by simp)
    simp only [main_runner, h1, h2, h3, h4, h5, h6, h7, Option.getD,
      t1, t2, t3, t4, t5, t6, t7, Bool.and_self, Bool.not_true,
      Bool.false_eq_true, if_false]

/-- Witness for C9: the missing-key branch with an empty context and the
success branch over `runnerCtxAll`. -/
theorem c9_runner_contract_witness :
    ((main_runner [] (.ok "hi")).exitCode = 1 ∧
      (main_runner [] (.ok "hi")).stdoutJson = none ∧
      (main_runner [] (.ok "hi")).orchestratorConstructed = false ∧
      ∃ m t, (main_runner [] (.ok "hi")).stderrJson =
        some [("error", .jstr m), ("type", .jstr t)]) ∧
    main_runner runnerCtxAll (.ok "hi") =
      ⟨0, some [("content", .jstr "hi"), ("memory_stored", .jbool true)], none, true⟩ :=
  ⟨c9_runner_contract.1 [] (.ok "hi") "user_id" (by simp) rfl,
   c9_runner_contract.2 runnerCtxAll "hi" (by
     intro k hk
     simp only [List.mem_cons, List.mem_singleton, List.not_mem_nil, or_false] at hk
     rcases hk with rfl | rfl | rfl | rfl | rfl | rfl | rfl
     · exact ⟨_, rfl, rfl⟩
     · exact ⟨_, rfl, rfl⟩
     · exact ⟨_, rfl, rfl⟩
     · exact ⟨_, rfl, rfl⟩
     · exact ⟨_, rfl, rfl⟩
     · exact ⟨_, rfl, rfl⟩
     · exact ⟨_, rfl, rfl⟩)⟩
